import Mathlib

/-!
Verification of the MeetingSummarizer pipeline (src/summarizer.py).

The repository code orchestrates two external capabilities: a local Whisper
speech model and a remote Gemini client, plus the standard json.loads
parser. All three are black boxes to the repository code, so they enter the
embedding as explicit parameters; the embedded functions reproduce exactly
the branching and data flow of the Python source over those parameters.
Each embedded operation also returns a call counter recording how often the
external capability was invoked during that call, so that claims of the
form "the backend is never contacted" are statable.

One subtlety of the source is modelled explicitly: inside
summarize_transcript, the statement import json (line 93) sits inside the
try block, so the local name json is bound only after generate_content has
returned. When generate_content raises an exception that is not an
APIError, the handler search evaluates the clause except json.JSONDecodeError
with json still unbound, raising UnboundLocalError; an exception raised
while evaluating an except clause cancels the handler search, so the later
except Exception never runs and the exception propagates to the caller.
The embedded summarize_transcript therefore returns an Except value: ok for
the executions that return a dictionary, error for this propagating crash.
-/

/-- JSON values: the shape of what json.loads can return and of the
dictionaries that summarize_transcript builds. An object is an ordered
list of key-value bindings, as emitted by the backend. -/
inductive Json where
  | null : Json
  | bool : Bool → Json
  | num : Int → Json
  | str : String → Json
  | arr : List Json → Json
  | obj : List (String × Json) → Json

/-- Outcome of one call to gemini_client.models.generate_content at line
84: a returned response whose text field reads as the given body, a raised
APIError carrying its message, or a raised exception of any other class
carrying its message. The last case happens before the import of json at
line 93 has executed. -/
inductive LLMOutcome where
  | success : String → LLMOutcome
  | apiError : String → LLMOutcome
  | otherError : String → LLMOutcome

/-- Outcome of evaluating json.loads(response.text) at line 94, after
the binding of json at line 93 has executed: a parsed value, a raised
json.JSONDecodeError, or a raise of any other class (for example from the
response.text access or a TypeError inside the parser), which the clause
except Exception at line 104 catches. -/
inductive ParseOutcome where
  | parsed : Json → ParseOutcome
  | decodeError : ParseOutcome
  | otherExc : String → ParseOutcome

/-- The Gemini client as the source uses it: a single operation mapping the
prompt it is sent to an outcome. -/
structure LLMClient where
  generate_content : String → LLMOutcome

/-- The loaded Whisper model: transcribe maps an audio path to the text
field of its result dictionary, or to an error message when the decode
raises. -/
structure ASRModel where
  transcribe : String → Except String String

/-- The orchestrator object built by the constructor of the Python class
MeetingSummarizer: the two engine handles, either of which may be absent
(None) when its initialization failed. -/
structure MeetingSummarizer where
  asr_model : Option ASRModel
  gemini_client : Option LLMClient

namespace MeetingSummarizer

/-- Embedding of MeetingSummarizer.__init__ (src/summarizer.py lines
16-32). The whisper.load_model call may raise: it enters as an Except
value, and the except branch of the source maps a raise to asr_model =
none. The credential lookup os.getenv enters as an Option String; when it
is absent the client field keeps its initial None. The Gemini client
constructor enters as mkClient. The function is total: no failure of
either engine escapes the constructor. -/
def init (load_model : Except String ASRModel) (gemini_api_key : Option String)
    (mkClient : String → LLMClient) : MeetingSummarizer :=
  let asr : Option ASRModel :=
    match load_model with
    | Except.ok m => some m
    | Except.error _ => none
  let client : Option LLMClient :=
    match gemini_api_key with
    | some key => some (mkClient key)
    | none => none
  ⟨asr, client⟩

/-- Embedding of MeetingSummarizer.transcribe_audio (lines 34-53). Returns
the string result of the Python method together with the number of times
the underlying decoder (self.asr_model.transcribe) was invoked. -/
def transcribe_audio (self : MeetingSummarizer) (audio_path : String) :
    String × Nat :=
  match self.asr_model with
  | none => ("Transcription failed due to model loading error.", 0)
  | some m =>
    match m.transcribe audio_path with
    | Except.ok transcript => (transcript, 1)
    | Except.error e => ("Error during transcription: " ++ e, 1)

end MeetingSummarizer

/-- The fixed text of the prompt f-string (lines 66-79) that precedes the
interpolated transcript, reproduced character for character (\x27 is the
ASCII apostrophe used as a quote in the source text). -/
def promptPre : String :=
  "\n        Analyze the following meeting transcript. Your output must be in JSON format\n        with three top-level keys: \x27summary\x27, \x27key_decisions\x27, and \x27action_items\x27.\n\n        1.  \x27summary\x27: A concise paragraph summarizing the entire meeting.\n        2.  \x27key_decisions\x27: A numbered list of all finalized decisions made in the meeting.\n        3.  \x27action_items\x27: A numbered list of all tasks assigned, clearly stating the task\n            and the person responsible (if mentioned), or \x27TBD\x27 if not.\n\n        TRANSCRIPT:\n        ---\n        "

/-- The fixed text of the prompt f-string that follows the interpolated
transcript. -/
def promptSuf : String := "\n        ---\n        "

/-- The prompt the source builds: the f-string is exactly the fixed prefix,
the transcript interpolated verbatim, and the fixed suffix. -/
def buildPrompt (transcript : String) : String :=
  promptPre ++ transcript ++ promptSuf

/-- The one-key error dictionary that each failure branch of the source
builds. -/
def errObj (msg : String) : Json := Json.obj [("error", Json.str msg)]

/-- The message of the UnboundLocalError that propagates out of
summarize_transcript when generate_content raises a non-APIError: the
clause except json.JSONDecodeError evaluates the local name json, which
the import inside the try has not yet bound. The original exception
message is kept as the context the interpreter chains. -/
def jsonUnboundMsg (e : String) : String :=
  "UnboundLocalError: local variable \x27json\x27 referenced before assignment (while handling: " ++ e ++ ")"

namespace MeetingSummarizer

/-- Embedding of MeetingSummarizer.summarize_transcript (lines 55-106).
json_loads is the external evaluation of json.loads(response.text) after
the import has executed. The result is ok with the dictionary the Python
method returns and the number of generate_content calls (network
attempts), or error for the execution that crashes: the unavailable-client
early return, the success path returning the parsed payload verbatim, the
APIError branch, the JSONDecodeError branch, and the except Exception
branch (reachable only for exceptions raised after the import at line 93)
all return dictionaries; a non-APIError raised at the generate_content
call site itself escapes as UnboundLocalError, because the handler clause
except json.JSONDecodeError evaluates the still-unbound local json and
the later except Exception never runs. -/
def summarize_transcript (self : MeetingSummarizer)
    (json_loads : String → ParseOutcome) (transcript : String) :
    Except String (Json × Nat) :=
  match self.gemini_client with
  | none => Except.ok (errObj "LLM client not initialized. Check API Key.", 0)
  | some client =>
    match client.generate_content (buildPrompt transcript) with
    | LLMOutcome.success body =>
      match json_loads body with
      | ParseOutcome.parsed summary_data => Except.ok (summary_data, 1)
      | ParseOutcome.decodeError =>
        Except.ok (errObj "LLM did not return valid JSON.", 1)
      | ParseOutcome.otherExc e =>
        Except.ok (errObj ("Unexpected error: " ++ e), 1)
    | LLMOutcome.apiError e => Except.ok (errObj ("LLM API Error: " ++ e), 1)
    | LLMOutcome.otherError e => Except.error (jsonUnboundMsg e)

end MeetingSummarizer

/-- Substring test on character lists: the semantics of the Python
membership test pat in s on strings. -/
def listContains (pat : List Char) : List Char → Bool
  | [] => pat.isEmpty
  | c :: rest => pat.isPrefixOf (c :: rest) || listContains pat rest

/-- Substring test on strings, wrapping listContains. -/
def strContains (s pat : String) : Bool := listContains pat.data s.data

/-- Final state of one demo run of the main block. The crashed state
records an exception propagating out of summarize_transcript into the
demo, which has no handler. -/
inductive RunOutcome where
  | fileMissing : RunOutcome
  | transcriptionFailed : String → RunOutcome
  | summarized : String → Json → RunOutcome
  | crashed : String → String → RunOutcome

/-- Trace of one demo run: the final outcome and how many times
summarize_transcript was entered. -/
structure RunTrace where
  outcome : RunOutcome
  summarizeCalls : Nat

/-- Embedding of the demo orchestration in the main block (lines 109-147):
check the audio file exists, transcribe, and only when the transcript
string fails the membership test for the substring Error, summarize.
The trace records the branch taken and the number of summarize_transcript
invocations; an exception escaping summarize_transcript crashes the demo,
which installs no handler. -/
def mainRun (fileExists : Bool) (st : MeetingSummarizer)
    (json_loads : String → ParseOutcome) (audio_path : String) : RunTrace :=
  if fileExists then
    let transcript_text := (st.transcribe_audio audio_path).1
    if strContains transcript_text "Error" then
      ⟨RunOutcome.transcriptionFailed transcript_text, 0⟩
    else
      match st.summarize_transcript json_loads transcript_text with
      | Except.ok out => ⟨RunOutcome.summarized transcript_text out.1, 1⟩
      | Except.error e => ⟨RunOutcome.crashed transcript_text e, 1⟩
  else
    ⟨RunOutcome.fileMissing, 0⟩

/-- Whether a JSON value is an object carrying the given key. -/
def hasKey (j : Json) (k : String) : Bool :=
  match j with
  | Json.obj fields => fields.any (fun p => p.1 == k)
  | _ => false

/-- Look a key up in a JSON object (first binding wins, as in a Python
dict built from distinct keys). -/
def getKey (j : Json) (k : String) : Option Json :=
  match j with
  | Json.obj fields => (fields.find? (fun p => p.1 == k)).map Prod.snd
  | _ => none

/-- A summary value is fully structured when it carries all three fields
of the contract. -/
def fullyStructured (j : Json) : Bool :=
  hasKey j "summary" && hasKey j "key_decisions" && hasKey j "action_items"

/-- A value is an error-only dictionary when it is an object with exactly
one binding, of the key error to a string. This is the shape of every
failure return of summarize_transcript. -/
def isErrorOnly (j : Json) : Bool :=
  match j with
  | Json.obj [(k, Json.str _)] => k == "error"
  | _ => false

/-- A stub client answering every prompt with the same fixed outcome. -/
def constClient (o : LLMOutcome) : LLMClient := ⟨fun _ => o⟩

/-- A stub json.loads given by a finite parse table: bodies in the table
parse to their value, bodies outside it raise json.JSONDecodeError. -/
def tableLoads (tbl : List (String × Json)) : String → ParseOutcome :=
  fun s =>
    match (tbl.find? (fun p => p.1 == s)).map Prod.snd with
    | some j => ParseOutcome.parsed j
    | none => ParseOutcome.decodeError

/-- A syntactically valid JSON body carrying only a summary field (\x7b
and \x7d are the ASCII braces). -/
def c3Body : String := "\x7b\"summary\": \"Launch planning recap\"\x7d"

/-- The parse of c3Body: an object with the summary key alone, no
key_decisions and no action_items. -/
def c3Payload : Json := Json.obj [("summary", Json.str "Launch planning recap")]

/-- Three decisions as the backend emits them, in order. -/
def c4Decisions : List Json :=
  [Json.str "1. Launch on Friday", Json.str "2. Freeze feature scope",
   Json.str "3. Move standup to 9am"]

/-- Two action items as the backend emits them: the first names a
responsible person, the second states a task with no owner and no TBD
marker. -/
def c4Actions : List Json :=
  [Json.str "1. Prepare the launch deck - Alice", Json.str "2. Book the demo room"]

/-- A well-formed payload for the round-trip scenario: all three keys,
three decisions, two action items, one action item without an owner. -/
def c4Payload : Json :=
  Json.obj [("summary", Json.str "Weekly sync covering launch readiness."),
            ("key_decisions", Json.arr c4Decisions),
            ("action_items", Json.arr c4Actions)]

/-- The JSON body whose parse is c4Payload. -/
def c4Body : String :=
  "\x7b\"summary\": \"Weekly sync covering launch readiness.\", \"key_decisions\": [\"1. Launch on Friday\", \"2. Freeze feature scope\", \"3. Move standup to 9am\"], \"action_items\": [\"1. Prepare the launch deck - Alice\", \"2. Book the demo room\"]\x7d"

/-- A JSON body whose parsed value is itself a one-key error object, as a
model is free to emit on the success path. -/
def c10Body : String := "\x7b\"error\": \"LLM API Error: boom\"\x7d"

/-- Claim C5: a failure to initialize either engine (the speech model load
raising, or the credential being absent) marks that engine unavailable, and
the constructor still returns a fully constructed orchestrator object (the
embedded constructor is total, so no exception leaves it); moreover a
successful model load is kept. -/
theorem C5_init_fail_soft (load_model : Except String ASRModel)
    (gemini_api_key : Option String) (mkClient : String → LLMClient) :
    (∀ e, load_model = Except.error e →
      (MeetingSummarizer.init load_model gemini_api_key mkClient).asr_model = none) ∧
    (gemini_api_key = none →
      (MeetingSummarizer.init load_model gemini_api_key mkClient).gemini_client = none) ∧
    (∀ m, load_model = Except.ok m →
      (MeetingSummarizer.init load_model gemini_api_key mkClient).asr_model = some m) := by
  refine ⟨?_, ?_, ?_⟩
  · intro e he; subst he; rfl
  · intro hk; subst hk; rfl
  · intro m hm; subst hm; rfl

/-- Witness for C5 at a concrete failing initialization: the Whisper load
raised and the credential is absent, and both engines come out marked
unavailable. -/
theorem C5_witness :
    (MeetingSummarizer.init (Except.error "FFmpeg missing") none
      (fun _ => constClient (LLMOutcome.apiError "unused"))).asr_model = none ∧
    (MeetingSummarizer.init (Except.error "FFmpeg missing") none
      (fun _ => constClient (LLMOutcome.apiError "unused"))).gemini_client = none :=
  ⟨(C5_init_fail_soft (Except.error "FFmpeg missing") none
      (fun _ => constClient (LLMOutcome.apiError "unused"))).1 "FFmpeg missing" rfl,
   (C5_init_fail_soft (Except.error "FFmpeg missing") none
      (fun _ => constClient (LLMOutcome.apiError "unused"))).2.1 rfl⟩

/-- Claim C6: when the transcription engine failed to initialize,
transcribe_audio returns the one fixed unavailability string, the same for
every audio path and every state of the other engine, with zero decoder
invocations; the embedded function is total, so no exception crosses the
boundary. -/
theorem C6_unavailable_engine_fixed_result (g : Option LLMClient)
    (audio_path : String) :
    MeetingSummarizer.transcribe_audio ⟨none, g⟩ audio_path =
      ("Transcription failed due to model loading error.", 0) := rfl

/-- Claim C7: when the summarization engine is unavailable,
summarize_transcript returns the unavailability failure dictionary for
every transcript, with zero generate_content calls, hence no request to
the remote backend. -/
theorem C7_unavailable_generator (a : Option ASRModel)
    (json_loads : String → ParseOutcome) (transcript : String) :
    MeetingSummarizer.summarize_transcript ⟨a, none⟩ json_loads transcript =
      Except.ok (errObj "LLM client not initialized. Check API Key.", 0) := rfl

/-- Claim C1, evaluation of the code at the failing input: with the
transcription engine unavailable, transcribe_audio returns the fixed
message, which does not contain the capitalized substring Error that the
demo tests for, so the run does not stop in the transcription-failed
state: it calls summarize_transcript (call count 1), against the claim. -/
theorem C1_unavailable_transcription_still_summarizes :
    (mainRun true ⟨none, none⟩ (fun _ => ParseOutcome.decodeError)
      "data/meeting_audio.mp3").summarizeCalls = 1 ∧
    (mainRun true ⟨none, none⟩ (fun _ => ParseOutcome.decodeError)
      "data/meeting_audio.mp3").outcome =
      RunOutcome.summarized "Transcription failed due to model loading error."
        (errObj "LLM client not initialized. Check API Key.") := ⟨rfl, rfl⟩

/-- Characterization of summarize_transcript when a client is present:
the result is determined by the outcome of generate_content on the built
prompt and then by the evaluation of json.loads on the body; a
non-APIError at the call site propagates as the UnboundLocalError. -/
theorem summarize_transcript_some (a : Option ASRModel) (c : LLMClient)
    (jl : String → ParseOutcome) (t : String) :
    MeetingSummarizer.summarize_transcript ⟨a, some c⟩ jl t =
      match c.generate_content (buildPrompt t) with
      | LLMOutcome.success body =>
        match jl body with
        | ParseOutcome.parsed d => Except.ok (d, 1)
        | ParseOutcome.decodeError =>
          Except.ok (errObj "LLM did not return valid JSON.", 1)
        | ParseOutcome.otherExc e =>
          Except.ok (errObj ("Unexpected error: " ++ e), 1)
      | LLMOutcome.apiError e => Except.ok (errObj ("LLM API Error: " ++ e), 1)
      | LLMOutcome.otherError e => Except.error (jsonUnboundMsg e) := rfl

/-- Characterization of summarize_transcript when the backend call
succeeds with a given body: the result is determined by the evaluation of
json.loads on that body. -/
theorem summarize_transcript_success (a : Option ASRModel) (c : LLMClient)
    (jl : String → ParseOutcome) (t body : String)
    (h1 : c.generate_content (buildPrompt t) = LLMOutcome.success body) :
    MeetingSummarizer.summarize_transcript ⟨a, some c⟩ jl t =
      match jl body with
      | ParseOutcome.parsed d => Except.ok (d, 1)
      | ParseOutcome.decodeError =>
        Except.ok (errObj "LLM did not return valid JSON.", 1)
      | ParseOutcome.otherExc e =>
        Except.ok (errObj ("Unexpected error: " ++ e), 1) := by
  rw [summarize_transcript_some, h1]

/-- Every error dictionary the failure branches build is an object with
exactly one binding, the key error to a string. -/
theorem isErrorOnly_errObj (m : String) : isErrorOnly (errObj m) = true := rfl

/-- Claim C2, evaluation of the code at the failing input: when
generate_content raises an exception that is not an APIError (here a
connection reset), the call does not return a typed Unexpected failure:
it propagates an UnboundLocalError to the caller, because the clause
except json.JSONDecodeError evaluates the local name json that the import
inside the try has not bound, and the later except Exception never
runs. -/
theorem C2_call_site_exception_escapes :
    MeetingSummarizer.summarize_transcript
      ⟨none, some (constClient (LLMOutcome.otherError "ConnectionError: connection reset"))⟩
      (fun _ => ParseOutcome.decodeError) "some transcript" =
      Except.error (jsonUnboundMsg "ConnectionError: connection reset") := rfl

/-- Claim C8: whenever the backend returns a body that json.loads cannot
parse (a JSONDecodeError, reachable because the import at line 93 has
executed by then), summarize_transcript returns the malformed-response
failure dictionary and does not crash. -/
theorem C8_malformed_response (a : Option ASRModel) (gc : LLMClient)
    (jl : String → ParseOutcome) (t body : String)
    (h1 : gc.generate_content (buildPrompt t) = LLMOutcome.success body)
    (h2 : jl body = ParseOutcome.decodeError) :
    MeetingSummarizer.summarize_transcript ⟨a, some gc⟩ jl t =
      Except.ok (errObj "LLM did not return valid JSON.", 1) := by
  rw [summarize_transcript_success a gc jl t body h1, h2]

/-- Witness for C8 at a concrete non-JSON body. -/
theorem C8_witness :
    MeetingSummarizer.summarize_transcript
      ⟨none, some (constClient (LLMOutcome.success "I am sorry, I cannot help with that."))⟩
      (tableLoads []) "some transcript" =
      Except.ok (errObj "LLM did not return valid JSON.", 1) :=
  C8_malformed_response none
    (constClient (LLMOutcome.success "I am sorry, I cannot help with that."))
    (tableLoads []) "some transcript" "I am sorry, I cannot help with that." rfl rfl

set_option maxRecDepth 20000 in
/-- Claim C9: the prompt embeds the transcript verbatim between the fixed
prefix and suffix, and the fixed prefix carries the instructions for the
three fields (the quoted key names summary, key_decisions, action_items)
and the quoted TBD sentinel for action items without a stated owner. -/
theorem C9_prompt_contract (transcript : String) :
    buildPrompt transcript = promptPre ++ transcript ++ promptSuf ∧
    strContains promptPre "\x27summary\x27" = true ∧
    strContains promptPre "\x27key_decisions\x27" = true ∧
    strContains promptPre "\x27action_items\x27" = true ∧
    strContains promptPre "\x27TBD\x27" = true := by
  refine ⟨rfl, ?_, ?_, ?_, ?_⟩ <;> decide

/-- Claim C3, counterexample: when the backend emits a syntactically valid
JSON body that carries only a summary field, summarize_transcript returns
the parsed object verbatim — a value that is neither a fully structured
success (it lacks key_decisions and action_items) nor an error-only
failure, against the claim that no returned value is partially
populated. -/
theorem C3_counterexample_partial_success :
    MeetingSummarizer.summarize_transcript
       ⟨none, some (constClient (LLMOutcome.success c3Body))⟩
       (tableLoads [(c3Body, c3Payload)]) "some transcript" =
      Except.ok (c3Payload, 1) ∧
    hasKey c3Payload "summary" = true ∧
    fullyStructured c3Payload = false ∧
    isErrorOnly c3Payload = false := ⟨rfl, rfl, rfl, rfl⟩

/-- Claim C3 as amended: every value summarize_transcript returns is
either the payload parsed from the backend body, returned verbatim with no
schema validation, or an error-only dictionary (full structure of a
success therefore holds only when the backend payload itself carries all
three fields); the only other possible execution returns nothing at all,
propagating an exception on the pre-import crash path. -/
theorem C3_amended_verbatim_payload_or_error_dict (self : MeetingSummarizer)
    (jl : String → ParseOutcome) (t : String) :
    (∃ c body payload n, self.gemini_client = some c ∧
       c.generate_content (buildPrompt t) = LLMOutcome.success body ∧
       jl body = ParseOutcome.parsed payload ∧
       MeetingSummarizer.summarize_transcript self jl t = Except.ok (payload, n)) ∨
    (∃ m n, MeetingSummarizer.summarize_transcript self jl t =
       Except.ok (errObj m, n) ∧ isErrorOnly (errObj m) = true) ∨
    (∃ e, MeetingSummarizer.summarize_transcript self jl t = Except.error e) := by
  obtain ⟨a, g⟩ := self
  cases g with
  | none => exact Or.inr (Or.inl ⟨_, 0, rfl, isErrorOnly_errObj _⟩)
  | some c =>
    cases h : c.generate_content (buildPrompt t) with
    | success body =>
      cases hj : jl body with
      | parsed payload =>
        exact Or.inl ⟨c, body, payload, 1, rfl, h, hj, by
          rw [summarize_transcript_success a c jl t body h, hj]⟩
      | decodeError =>
        refine Or.inr (Or.inl ⟨"LLM did not return valid JSON.", 1, ?_,
          isErrorOnly_errObj _⟩)
        rw [summarize_transcript_success a c jl t body h, hj]
      | otherExc e =>
        refine Or.inr (Or.inl ⟨"Unexpected error: " ++ e, 1, ?_,
          isErrorOnly_errObj _⟩)
        rw [summarize_transcript_success a c jl t body h, hj]
    | apiError e =>
      refine Or.inr (Or.inl ⟨"LLM API Error: " ++ e, 1, ?_,
        isErrorOnly_errObj _⟩)
      rw [summarize_transcript_some, h]
    | otherError e =>
      refine Or.inr (Or.inr ⟨jsonUnboundMsg e, ?_⟩)
      rw [summarize_transcript_some, h]

set_option maxRecDepth 20000 in
/-- Claim C4, counterexample: a well-formed payload (all three keys, three
decisions in order, two action items of which the second states no owner
and carries no TBD marker) is returned verbatim, so the ownerless action
item of the result is not labeled TBD, against the claim. -/
theorem C4_counterexample_no_tbd_label :
    MeetingSummarizer.summarize_transcript
       ⟨none, some (constClient (LLMOutcome.success c4Body))⟩
       (tableLoads [(c4Body, c4Payload)]) "some transcript" =
      Except.ok (c4Payload, 1) ∧
    fullyStructured c4Payload = true ∧
    getKey c4Payload "key_decisions" = some (Json.arr c4Decisions) ∧
    c4Decisions.length = 3 ∧
    getKey c4Payload "action_items" = some (Json.arr c4Actions) ∧
    c4Actions.length = 2 ∧
    (∀ j, c4Actions.getLast? = some j → j = Json.str "2. Book the demo room") ∧
    strContains "2. Book the demo room" "TBD" = false := by
  refine ⟨rfl, rfl, rfl, rfl, rfl, rfl, ?_, by decide⟩
  intro j hj
  cases hj
  rfl

/-- Claim C4 as amended: summarize_transcript returns the parsed payload
verbatim, so the decisions and action items come back exactly as emitted
(hence length three in the original order for the round-trip payload);
the ownerless action item carries the TBD label only when the backend
itself emitted that label as the prompt instructs — the code adds none. -/
theorem C4_amended_payload_passthrough (a : Option ASRModel) (gc : LLMClient)
    (jl : String → ParseOutcome) (t body : String) (payload : Json)
    (ds as : List Json)
    (h1 : gc.generate_content (buildPrompt t) = LLMOutcome.success body)
    (h2 : jl body = ParseOutcome.parsed payload)
    (h3 : getKey payload "key_decisions" = some (Json.arr ds))
    (h4 : getKey payload "action_items" = some (Json.arr as)) :
    MeetingSummarizer.summarize_transcript ⟨a, some gc⟩ jl t =
      Except.ok (payload, 1) ∧
    ∃ r, MeetingSummarizer.summarize_transcript ⟨a, some gc⟩ jl t =
        Except.ok (r, 1) ∧
      getKey r "key_decisions" = some (Json.arr ds) ∧
      getKey r "action_items" = some (Json.arr as) := by
  have hout : MeetingSummarizer.summarize_transcript ⟨a, some gc⟩ jl t =
      Except.ok (payload, 1) := by
    rw [summarize_transcript_success a gc jl t body h1, h2]
  exact ⟨hout, payload, hout, h3, h4⟩

set_option maxRecDepth 20000 in
/-- Witness for the amended C4 at the round-trip payload: the three
decisions and two action items come back exactly as the backend emitted
them. -/
theorem C4_witness :
    MeetingSummarizer.summarize_transcript
       ⟨none, some (constClient (LLMOutcome.success c4Body))⟩
       (tableLoads [(c4Body, c4Payload)]) "meeting transcript" =
      Except.ok (c4Payload, 1) ∧
    ∃ r, MeetingSummarizer.summarize_transcript
       ⟨none, some (constClient (LLMOutcome.success c4Body))⟩
       (tableLoads [(c4Body, c4Payload)]) "meeting transcript" =
        Except.ok (r, 1) ∧
      getKey r "key_decisions" = some (Json.arr c4Decisions) ∧
      getKey r "action_items" = some (Json.arr c4Actions) :=
  C4_amended_payload_passthrough none (constClient (LLMOutcome.success c4Body))
    (tableLoads [(c4Body, c4Payload)]) "meeting transcript" c4Body c4Payload
    c4Decisions c4Actions rfl rfl rfl rfl

/-- Claim C10: every failure branch of summarize_transcript that returns
(engine unavailable at line 63, APIError at line 100, JSONDecodeError at
line 103, and the except Exception branch at line 106, reachable for
exceptions raised after the import) returns a dictionary with exactly one
binding, the key error to a human-readable string; and a success whose
model-emitted payload is itself such an error object is indistinguishable
from a genuine failure, shown by a success run and an APIError run
returning the same value. -/
theorem C10_failure_shape_and_ambiguity (a : Option ASRModel)
    (gc : LLMClient) (jl : String → ParseOutcome) (t : String) :
    (∀ m, isErrorOnly (errObj m) = true) ∧
    MeetingSummarizer.summarize_transcript ⟨a, none⟩ jl t =
      Except.ok (errObj "LLM client not initialized. Check API Key.", 0) ∧
    (∀ e, gc.generate_content (buildPrompt t) = LLMOutcome.apiError e →
      MeetingSummarizer.summarize_transcript ⟨a, some gc⟩ jl t =
        Except.ok (errObj ("LLM API Error: " ++ e), 1)) ∧
    (∀ body, gc.generate_content (buildPrompt t) = LLMOutcome.success body →
      jl body = ParseOutcome.decodeError →
      MeetingSummarizer.summarize_transcript ⟨a, some gc⟩ jl t =
        Except.ok (errObj "LLM did not return valid JSON.", 1)) ∧
    (∀ body e, gc.generate_content (buildPrompt t) = LLMOutcome.success body →
      jl body = ParseOutcome.otherExc e →
      MeetingSummarizer.summarize_transcript ⟨a, some gc⟩ jl t =
        Except.ok (errObj ("Unexpected error: " ++ e), 1)) ∧
    MeetingSummarizer.summarize_transcript
       ⟨none, some (constClient (LLMOutcome.success c10Body))⟩
       (tableLoads [(c10Body, errObj "LLM API Error: boom")]) "probe" =
      MeetingSummarizer.summarize_transcript
       ⟨none, some (constClient (LLMOutcome.apiError "boom"))⟩
       (fun _ => ParseOutcome.decodeError) "probe" := by
  refine ⟨isErrorOnly_errObj, rfl, fun e h => ?_, fun body h1 h2 => ?_,
    fun body e h1 h2 => ?_, rfl⟩
  · rw [summarize_transcript_some, h]
  · rw [summarize_transcript_success a gc jl t body h1, h2]
  · rw [summarize_transcript_success a gc jl t body h1, h2]

/-- Witness for C10 at a concrete APIError: the quota failure returns the
one-key error dictionary. -/
theorem C10_witness :
    MeetingSummarizer.summarize_transcript
      ⟨none, some (constClient (LLMOutcome.apiError "quota exceeded"))⟩
      (fun _ => ParseOutcome.decodeError) "some transcript" =
      Except.ok (errObj ("LLM API Error: " ++ "quota exceeded"), 1) :=
  (C10_failure_shape_and_ambiguity none
    (constClient (LLMOutcome.apiError "quota exceeded"))
    (fun _ => ParseOutcome.decodeError) "some transcript").2.2.1 "quota exceeded" rfl
